import Mathlib

/-!
Verification of the LayerNormGrad CUDA operator adapter
(orttraining/orttraining/training_ops/cuda/nn/layer_norm.cc).

The adapter is shape/dispatch glue: it reads five input tensors from the
kernel context, normalizes the configured axis against the forward output
tensor rank, splits the shape into extents n1 and n2, enforces n2 != 1,
allocates three output tensors and two scratch buffers, and calls the
external device routine HostLayerNormGradient.

The embedding models tensors by their shapes (the claims under study
concern shapes, allocation and control flow, not numerical contents), and
records the observable side effects of one compute invocation as an
ordered event trace.  The external device routine is a parameter that may
fail, so that propagation of device failures can be stated.
-/

namespace OnnxruntimeCuda

/-- A tensor, modelled by its shape: the list of dimension extents. -/
structure Tensor where
  shape : List Nat
deriving DecidableEq, Repr

/-- The five positional input tensors read by ComputeInternal
(layer_norm.cc lines 37-41): upstream output gradient, forward output,
scale, bias, and per-row inverse standard deviation. -/
structure OpKernelContext where
  yGrad : Tensor
  y : Tensor
  scale : Tensor
  bias : Tensor
  invStdVar : Tensor
deriving DecidableEq, Repr

/-- Construction-time configuration bundle: named signed-integer
attributes, looked up by name. -/
structure OpKernelInfo where
  attrs : List (String × Int)
deriving DecidableEq, Repr

/-- The kernel object: the only state stored by the constructor is the
signed-integer axis attribute (member axis_, layer_norm.cc line 29). -/
structure LayerNormGrad where
  axis : Int
deriving DecidableEq, Repr

/-- Name of the axis attribute looked up by the constructor. -/
def axisAttrName : String := "axis"

/-- Error message for a failed attribute lookup in the constructor. -/
def axisAttrErrMsg : String := "GetAttr axis failed"

/-- Error message of the enforcement at layer_norm.cc line 54. -/
def n2ErrMsg : String := "n2 should not be 1"

/-- The constructor (layer_norm.cc lines 27-30): ORT_ENFORCE that the
attribute lookup GetAttr succeeds; on success the attribute value is
stored as axis_, otherwise construction fails fatally. -/
def mkLayerNormGrad (info : OpKernelInfo) : Except String LayerNormGrad :=
  match info.attrs.lookup axisAttrName with
  | some a => .ok { axis := a }
  | none => .error axisAttrErrMsg

/-- Boolean success test for an Except value. -/
def isOkE {ε α : Type} : Except ε α → Bool
  | .ok _ => true
  | .error _ => false

/-- Modelled from the spec: HandleNegativeAxis (core/providers/common.h,
not part of src/).  A negative axis counts from the end of the rank, so
it is shifted by the rank; a nonnegative axis is returned unchanged. -/
def handleNegativeAxis (axis : Int) (rank : Nat) : Int :=
  if axis < 0 then axis + rank else axis

/-- Modelled from the spec: TensorShape::SizeToDimension (not part of
src/) — the product of the dimensions strictly before the axis, the n1
batch extent. -/
def sizeToDimension (shape : List Nat) (axis : Nat) : Nat :=
  (shape.take axis).prod

/-- Modelled from the spec: TensorShape::SizeFromDimension (not part of
src/) — the product of the dimensions from the axis onward, the n2
normalized extent. -/
def sizeFromDimension (shape : List Nat) (axis : Nat) : Nat :=
  (shape.drop axis).prod

/-- The shape against which outputs and the split are computed: the
forward output tensor shape (layer_norm.cc lines 49-50, x_shape is an
alias of y_shape, the shape of input index 1). -/
def xShapeOf (ctx : OpKernelContext) : List Nat :=
  ctx.y.shape

/-- The normalized axis of one invocation (layer_norm.cc line 51). -/
def normalizedAxis (k : LayerNormGrad) (ctx : OpKernelContext) : Nat :=
  (handleNegativeAxis k.axis (xShapeOf ctx).length).toNat

/-- The n1 extent of one invocation (layer_norm.cc line 52). -/
def n1Of (k : LayerNormGrad) (ctx : OpKernelContext) : Nat :=
  sizeToDimension (xShapeOf ctx) (normalizedAxis k ctx)

/-- The n2 extent of one invocation (layer_norm.cc line 53). -/
def n2Of (k : LayerNormGrad) (ctx : OpKernelContext) : Nat :=
  sizeFromDimension (xShapeOf ctx) (normalizedAxis k ctx)

/-- An observable side effect of one compute invocation: allocation of an
output tensor at a positional index with a shape, allocation of a scratch
buffer of a size in elements, or the call into the device routine with
the split extents and the partial-accumulator fan-out. -/
inductive Event where
  | allocOutput : Nat → List Nat → Event
  | allocScratch : Nat → Event
  | deviceCall : Nat → Nat → Nat → Event
deriving DecidableEq, Repr

/-- Selects scratch-buffer allocation events. -/
def Event.isScratch : Event → Bool
  | .allocScratch _ => true
  | _ => false

/-- Selects output-tensor allocation events. -/
def Event.isOutputAlloc : Event → Bool
  | .allocOutput _ _ => true
  | _ => false

/-- Selects the allocation of output index 2, the bias gradient. -/
def Event.isBiasGradAlloc : Event → Bool
  | .allocOutput 2 _ => true
  | _ => false

/-- The ordered side effects of one successful pass through
layer_norm.cc lines 57-70: output 0 with x_shape, outputs 1 and 2 with
the scale tensor shape, two scratch buffers of part_size * n2 elements
with part_size = 16, then the device call. -/
def traceOf (k : LayerNormGrad) (ctx : OpKernelContext) : List Event :=
  [Event.allocOutput 0 (xShapeOf ctx),
   Event.allocOutput 1 ctx.scale.shape,
   Event.allocOutput 2 ctx.scale.shape,
   Event.allocScratch (16 * n2Of k ctx),
   Event.allocScratch (16 * n2Of k ctx),
   Event.deviceCall (n1Of k ctx) (n2Of k ctx) 16]

/-- The values produced by one successful compute invocation: the shapes
the three outputs were allocated with, the split extents, the scratch
sizes, and the fan-out constant passed to the device routine. -/
structure ComputeResult where
  xGradShape : List Nat
  scaleGradShape : List Nat
  biasGradShape : List Nat
  n1 : Nat
  n2 : Nat
  partGradGammaSize : Nat
  partGradBetaSize : Nat
  partSize : Nat
deriving DecidableEq, Repr

/-- The result record of one successful invocation. -/
def resultOf (k : LayerNormGrad) (ctx : OpKernelContext) : ComputeResult :=
  { xGradShape := xShapeOf ctx
    scaleGradShape := ctx.scale.shape
    biasGradShape := ctx.scale.shape
    n1 := n1Of k ctx
    n2 := n2Of k ctx
    partGradGammaSize := 16 * n2Of k ctx
    partGradBetaSize := 16 * n2Of k ctx
    partSize := 16 }

/-- ComputeInternal (layer_norm.cc lines 33-72).  The external device
routine HostLayerNormGradient is a parameter dev receiving n1, n2 and
part_size; a failure it raises propagates unchanged (the adapter has no
handler).  The value is the ordered event trace together with the
returned status: the enforcement of n2 != 1 at line 54 aborts the call
before any event, and otherwise the outputs and scratch buffers are
allocated and the device routine is invoked, with Status::OK() returned
on success. -/
def computeInternal (dev : Nat → Nat → Nat → Except String Unit)
    (k : LayerNormGrad) (ctx : OpKernelContext) :
    List Event × Except String ComputeResult :=
  if n2Of k ctx = 1 then ([], .error n2ErrMsg)
  else
    match dev (n1Of k ctx) (n2Of k ctx) 16 with
    | .ok _ => (traceOf k ctx, .ok (resultOf k ctx))
    | .error e => (traceOf k ctx, .error e)

/-- A device routine that always succeeds, for concrete evaluations. -/
def devOk : Nat → Nat → Nat → Except String Unit :=
  fun _ _ _ => .ok ()

/-- A concrete valid invocation context: rank-2 forward output [2, 3],
scale and bias of shape [3]. -/
def ctxEx : OpKernelContext :=
  { yGrad := { shape := [2, 3] }
    y := { shape := [2, 3] }
    scale := { shape := [3] }
    bias := { shape := [3] }
    invStdVar := { shape := [2] } }

/-- A concrete context whose split under axis 0 yields n2 = 1. -/
def ctxN2One : OpKernelContext :=
  { yGrad := { shape := [1] }
    y := { shape := [1] }
    scale := { shape := [1] }
    bias := { shape := [1] }
    invStdVar := { shape := [1] } }

/-- A concrete configuration bundle carrying axis = 0. -/
def infoAxis0 : OpKernelInfo :=
  { attrs := [(axisAttrName, 0)] }

/-- The concrete rank-3 context of the spec example: forward output
[2, 3, 4], scale and bias of shape [4]. -/
def ctx234 : OpKernelContext :=
  { yGrad := { shape := [2, 3, 4] }
    y := { shape := [2, 3, 4] }
    scale := { shape := [4] }
    bias := { shape := [4] }
    invStdVar := { shape := [6] } }

/-- C1: for every invocation of compute (with the n2 enforcement
satisfied), the adapter returns a success status when the device routine
succeeds, and any failure raised inside the device routine propagates to
the caller as a failure status, unchanged: the adapter performs no
recovery and does not swallow device errors. -/
theorem computeInternal_status (k : LayerNormGrad) (ctx : OpKernelContext)
    (dev : Nat → Nat → Nat → Except String Unit)
    (h : n2Of k ctx ≠ 1) :
    (dev (n1Of k ctx) (n2Of k ctx) 16 = .ok () →
      (computeInternal dev k ctx).2 = .ok (resultOf k ctx)) ∧
    (∀ e, dev (n1Of k ctx) (n2Of k ctx) 16 = .error e →
      (computeInternal dev k ctx).2 = .error e) := by
  constructor
  · intro hok
    simp [computeInternal, h, hok]
  · intro e he
    simp [computeInternal, h, he]

/-- Witness for C1 at the concrete context ctxEx with axis 1 and a
succeeding device routine. -/
theorem computeInternal_status_witness :
    n2Of { axis := 1 } ctxEx ≠ 1 ∧
    ((devOk (n1Of { axis := 1 } ctxEx) (n2Of { axis := 1 } ctxEx) 16 = .ok () →
      (computeInternal devOk { axis := 1 } ctxEx).2 =
        .ok (resultOf { axis := 1 } ctxEx)) ∧
    (∀ e, devOk (n1Of { axis := 1 } ctxEx) (n2Of { axis := 1 } ctxEx) 16 = .error e →
      (computeInternal devOk { axis := 1 } ctxEx).2 = .error e)) :=
  ⟨by decide, computeInternal_status { axis := 1 } ctxEx devOk (by decide)⟩

/-- C2 counterexample: with the axis attribute present and equal to 0,
construction succeeds even though axis 0 normalizes, for the invocation
shape [1], to a split with n2 = 1; the enforcement error is raised by
compute at run time, not at operator-construction time.  This refutes the
claim that such a configuration must fail at construction. -/
theorem n2_check_not_at_construction_cex :
    mkLayerNormGrad infoAxis0 = .ok { axis := 0 } ∧
    n2Of { axis := 0 } ctxN2One = 1 ∧
    (computeInternal devOk { axis := 0 } ctxN2One).2 = .error n2ErrMsg :=
  ⟨rfl, rfl, rfl⟩

/-- C2 amended: construction succeeds whenever the axis attribute is
present, whatever its value; the n2 != 1 check is enforced when compute
is invoked, and an invocation whose split yields n2 = 1 fails there with
the enforcement error. -/
theorem n2_check_raised_at_compute (info : OpKernelInfo) (a : Int)
    (hattr : info.attrs.lookup axisAttrName = some a)
    (k : LayerNormGrad) (ctx : OpKernelContext)
    (dev : Nat → Nat → Nat → Except String Unit)
    (h : n2Of k ctx = 1) :
    mkLayerNormGrad info = .ok { axis := a } ∧
    (computeInternal dev k ctx).2 = .error n2ErrMsg := by
  constructor
  · simp [mkLayerNormGrad, hattr]
  · simp [computeInternal, h]

/-- Witness for the amended C2 at the concrete configuration infoAxis0
and context ctxN2One. -/
theorem n2_check_raised_at_compute_witness :
    infoAxis0.attrs.lookup axisAttrName = some 0 ∧
    n2Of { axis := 0 } ctxN2One = 1 ∧
    (mkLayerNormGrad infoAxis0 = .ok { axis := 0 } ∧
      (computeInternal devOk { axis := 0 } ctxN2One).2 = .error n2ErrMsg) :=
  ⟨by decide, by decide,
    n2_check_raised_at_compute infoAxis0 0 (by decide)
      { axis := 0 } ctxN2One devOk (by decide)⟩

/-- C3: for every invocation passing the n2 enforcement, exactly three
output tensors are allocated: output index 0 with the shape of the
forward output tensor (input index 1), and outputs index 1 and 2 with
the shape of the scale tensor (input index 2), in that order. -/
theorem output_alloc_shapes (k : LayerNormGrad) (ctx : OpKernelContext)
    (dev : Nat → Nat → Nat → Except String Unit)
    (h : n2Of k ctx ≠ 1) :
    (computeInternal dev k ctx).1.filter Event.isOutputAlloc =
      [Event.allocOutput 0 ctx.y.shape,
       Event.allocOutput 1 ctx.scale.shape,
       Event.allocOutput 2 ctx.scale.shape] := by
  cases hdev : dev (n1Of k ctx) (n2Of k ctx) 16 <;>
    simp [computeInternal, h, hdev, traceOf, xShapeOf, Event.isOutputAlloc]

/-- Witness for C3 at the concrete context ctxEx with axis 1. -/
theorem output_alloc_shapes_witness :
    n2Of { axis := 1 } ctxEx ≠ 1 ∧
    (computeInternal devOk { axis := 1 } ctxEx).1.filter Event.isOutputAlloc =
      [Event.allocOutput 0 ctxEx.y.shape,
       Event.allocOutput 1 ctxEx.scale.shape,
       Event.allocOutput 2 ctxEx.scale.shape] :=
  ⟨by decide, output_alloc_shapes { axis := 1 } ctxEx devOk (by decide)⟩

/-- C4: for every configured axis valid for the rank, meaning
-rank ≤ axis < rank, the normalized axis satisfies
0 ≤ normalized axis < rank; a negative axis counts from the end. -/
theorem handleNegativeAxis_in_range (axis : Int) (rank : Nat)
    (h1 : -(rank : Int) ≤ axis) (h2 : axis < (rank : Int)) :
    0 ≤ handleNegativeAxis axis rank ∧
      handleNegativeAxis axis rank < (rank : Int) := by
  unfold handleNegativeAxis
  split <;> omega

/-- Witness for C4 at axis -1 and rank 3. -/
theorem handleNegativeAxis_in_range_witness :
    -((3 : Nat) : Int) ≤ -1 ∧ (-1 : Int) < ((3 : Nat) : Int) ∧
    (0 ≤ handleNegativeAxis (-1) 3 ∧ handleNegativeAxis (-1) 3 < ((3 : Nat) : Int)) :=
  ⟨by decide, by decide, handleNegativeAxis_in_range (-1) 3 (by decide) (by decide)⟩

/-- C5: for every tensor shape and valid normalized axis, the split
satisfies n1 * n2 = total element count: the product of the dimensions
before the axis times the product of the dimensions from the axis onward
equals the product of all dimensions. -/
theorem n1_mul_n2_eq_total (shape : List Nat) (axis : Nat)
    (h : axis < shape.length) :
    sizeToDimension shape axis * sizeFromDimension shape axis = shape.prod := by
  unfold sizeToDimension sizeFromDimension
  rw [← List.prod_append, List.take_append_drop]

/-- Witness for C5 at shape [2, 3, 4] and axis 1. -/
theorem n1_mul_n2_eq_total_witness :
    1 < [2, 3, 4].length ∧
    sizeToDimension [2, 3, 4] 1 * sizeFromDimension [2, 3, 4] 1 = [2, 3, 4].prod :=
  ⟨by decide, n1_mul_n2_eq_total [2, 3, 4] 1 (by decide)⟩

/-- C6: for every invocation passing the n2 enforcement, exactly two
transient scratch buffers are allocated, each of 16 * n2 elements, and
the fixed partial-accumulator fan-out constant 16 is passed to the
device routine together with the split extents. -/
theorem scratch_buffers_sixteen_n2 (k : LayerNormGrad) (ctx : OpKernelContext)
    (dev : Nat → Nat → Nat → Except String Unit)
    (h : n2Of k ctx ≠ 1) :
    (computeInternal dev k ctx).1.filter Event.isScratch =
      [Event.allocScratch (16 * n2Of k ctx),
       Event.allocScratch (16 * n2Of k ctx)] ∧
    Event.deviceCall (n1Of k ctx) (n2Of k ctx) 16 ∈ (computeInternal dev k ctx).1 := by
  cases hdev : dev (n1Of k ctx) (n2Of k ctx) 16 <;>
    simp [computeInternal, h, hdev, traceOf, Event.isScratch]

/-- Witness for C6 at the concrete context ctxEx with axis 1. -/
theorem scratch_buffers_sixteen_n2_witness :
    n2Of { axis := 1 } ctxEx ≠ 1 ∧
    ((computeInternal devOk { axis := 1 } ctxEx).1.filter Event.isScratch =
      [Event.allocScratch (16 * n2Of { axis := 1 } ctxEx),
       Event.allocScratch (16 * n2Of { axis := 1 } ctxEx)] ∧
    Event.deviceCall (n1Of { axis := 1 } ctxEx) (n2Of { axis := 1 } ctxEx) 16 ∈
      (computeInternal devOk { axis := 1 } ctxEx).1) :=
  ⟨by decide, scratch_buffers_sixteen_n2 { axis := 1 } ctxEx devOk (by decide)⟩

/-- C7: construction fails exactly when the signed-integer axis attribute
is absent from the configuration bundle, and succeeds exactly when it is
present: the failure is raised at operator-build time, before any
compute invocation exists. -/
theorem construction_requires_axis_attr (info : OpKernelInfo) :
    isOkE (mkLayerNormGrad info) = (info.attrs.lookup axisAttrName).isSome := by
  unfold mkLayerNormGrad
  cases info.attrs.lookup axisAttrName <;> simp [isOkE]

/-- C8: for the concrete rank-3 invocation with forward-output shape
[2, 3, 4] and axis 2, the split yields n1 = 6 and n2 = 4, the scale and
bias gradients are allocated with shape [4], and the scale and bias
input tensors they mirror have shape [4]. -/
theorem split_2_3_4_axis2 :
    (computeInternal devOk { axis := 2 } ctx234).2 =
      .ok { xGradShape := [2, 3, 4]
            scaleGradShape := [4]
            biasGradShape := [4]
            n1 := 6
            n2 := 4
            partGradGammaSize := 64
            partGradBetaSize := 64
            partSize := 16 } ∧
    ctx234.scale.shape = [4] ∧ ctx234.bias.shape = [4] :=
  ⟨rfl, rfl, rfl⟩

/-- C9: the bias tensor shape is never consulted: replacing the bias
input by any tensor leaves the whole invocation unchanged, and for every
invocation passing the n2 enforcement in which the bias shape differs
from the scale shape, the bias-gradient output (index 2) is still
allocated with the scale tensor shape. -/
theorem biasGrad_shape_ignores_bias (k : LayerNormGrad) (ctx : OpKernelContext)
    (dev : Nat → Nat → Nat → Except String Unit) (b : Tensor)
    (h : n2Of k ctx ≠ 1)
    (hne : ctx.bias.shape ≠ ctx.scale.shape) :
    computeInternal dev k { ctx with bias := b } = computeInternal dev k ctx ∧
    (computeInternal dev k ctx).1.filter Event.isBiasGradAlloc =
      [Event.allocOutput 2 ctx.scale.shape] := by
  constructor
  · rfl
  · cases hdev : dev (n1Of k ctx) (n2Of k ctx) 16 <;>
      simp [computeInternal, h, hdev, traceOf, Event.isBiasGradAlloc]

/-- A concrete context whose bias shape [5] differs from its scale
shape [3]. -/
def ctxBiasMismatch : OpKernelContext :=
  { yGrad := { shape := [2, 3] }
    y := { shape := [2, 3] }
    scale := { shape := [3] }
    bias := { shape := [5] }
    invStdVar := { shape := [2] } }

/-- Witness for C9 at the concrete context ctxBiasMismatch with axis 1,
substituting a bias tensor of shape [7]. -/
theorem biasGrad_shape_ignores_bias_witness :
    n2Of { axis := 1 } ctxBiasMismatch ≠ 1 ∧
    ctxBiasMismatch.bias.shape ≠ ctxBiasMismatch.scale.shape ∧
    (computeInternal devOk { axis := 1 } { ctxBiasMismatch with bias := { shape := [7] } } =
      computeInternal devOk { axis := 1 } ctxBiasMismatch ∧
    (computeInternal devOk { axis := 1 } ctxBiasMismatch).1.filter Event.isBiasGradAlloc =
      [Event.allocOutput 2 ctxBiasMismatch.scale.shape]) :=
  ⟨by decide, by decide,
    biasGrad_shape_ignores_bias { axis := 1 } ctxBiasMismatch
      devOk { shape := [7] } (by decide) (by decide)⟩

/-- C10: the n2 enforcement is atomic with respect to observable state:
for every invocation whose split yields n2 = 1, compute returns the
enforcement error with an empty event trace, so no output tensor is
allocated, no scratch buffer is allocated, and the device routine is
never invoked. -/
theorem n2_one_no_observable_effects (k : LayerNormGrad) (ctx : OpKernelContext)
    (dev : Nat → Nat → Nat → Except String Unit)
    (h : n2Of k ctx = 1) :
    computeInternal dev k ctx = ([], .error n2ErrMsg) := by
  simp [computeInternal, h]

/-- Witness for C10 at the concrete context ctxN2One with axis 0. -/
theorem n2_one_no_observable_effects_witness :
    n2Of { axis := 0 } ctxN2One = 1 ∧
    computeInternal devOk { axis := 0 } ctxN2One = ([], .error n2ErrMsg) :=
  ⟨by decide, n2_one_no_observable_effects { axis := 0 } ctxN2One devOk (by decide)⟩

end OnnxruntimeCuda
